import Mathlib

/-
Shallow embedding of src/src/hook/useToken.ts (perp-lite).

The file embeds the `useToken` hook: its view-state record, the two polling
effects (`fetchToken`, `fetchBalance`), the on-demand allowance query, the
`approve` / `approveInfinity` actions, the `Transfer` / `Approval` event
handlers, and the `useContractEvent` subscriber with its latest-callback ref
cell and its effect keyed on `(contract, eventName)`.

Asynchronous reads are modelled by passing the read result (or an error) as an
explicit argument to the continuation that the source runs after `await`.
Identities of external objects (contract bindings, signers) are modelled as
natural numbers; handlers are modelled by identifiers, since the claims are
about which handler is invoked, not what it computes.
-/

namespace PerpLite

abbrev Address := String

/-- Identity of an external contract-binding object (reference identity of the
`contract` value produced by `erc20.attach(address)`). -/
abbrev Source := Nat

/-- Identity of a signer object. -/
abbrev Signer := Nat

/-- Identity of a handler closure passed to `useContractEvent`. -/
abbrev HandlerId := Nat

/-- Modelled from the spec: `BIG_ZERO` comes from src/constant/number, which is
not under src/. Per section 3 the initial snapshot values are zero decimals. -/
def BIG_ZERO : ℚ := 0

/-- Modelled from the spec: `bigNum2Big` comes from src/util/format, which is
not under src/. Per section 6 and the glossary, the numeric adapter divides
the raw on-chain integer by `10 ^ decimals`, exactly. -/
def bigNum2Big (raw : Int) (decimals : Nat) : ℚ :=
  (raw : ℚ) / 10 ^ decimals

/-- Modelled from the spec: `big2BigNum` comes from src/util/format, which is
not under src/. Per section 6 the adapter converts a decimal to the raw
fixed-point integer form (18 decimals by default for ERC20 amounts). -/
def big2BigNum (b : ℚ) : Int :=
  (b * 10 ^ 18).floor

/-- Embeds `constants.MaxUint256` from the ethers library: the maximum
representable unsigned 256-bit integer. -/
def MaxUint256 : Int := 2 ^ 256 - 1

/-- The view-state owned by `useToken` (lines 16-18 of the source):
`balance`, `allowance` (a partial mapping keyed by spender address) and
`totalSupply`. -/
structure TokenViewState where
  balance : ℚ
  allowance : Address → Option ℚ
  totalSupply : ℚ

/-- The initial view-state set up by the three `useState` calls:
`useState(BIG_ZERO)` for balance and totalSupply, `useState({})` for
allowance. -/
def initialTokenViewState : TokenViewState :=
  { balance := BIG_ZERO, allowance := fun _ => none, totalSupply := BIG_ZERO }

/-- Embeds the object-spread update `prev => ({ ...prev, [spender]: v })`:
the entry at `spender` is set to `v`, every other key keeps its previous
value. -/
def setAllowanceEntry (m : Address → Option ℚ) (spender : Address) (v : ℚ) :
    Address → Option ℚ :=
  fun k => if k = spender then some v else m k

/-- The continuation `fetchToken` runs after its awaited multicall resolves
(lines 28-29): `setTotalSupply(bigNum2Big(totalSupply, decimals))`,
unconditionally, with no staleness check. -/
def fetchTokenComplete (st : TokenViewState) (decimals : Nat) (raw : Int) :
    TokenViewState :=
  { st with totalSupply := bigNum2Big raw decimals }

/-- The continuation `fetchBalance` runs after its awaited multicall resolves
(lines 39-40): `setBalance(bigNum2Big(balance, decimals))`, unconditionally. -/
def fetchBalanceComplete (st : TokenViewState) (decimals : Nat) (raw : Int) :
    TokenViewState :=
  { st with balance := bigNum2Big raw decimals }

/-- Outcome of one issued `fetchToken` read: if the awaited multicall rejects,
the async function aborts before `setTotalSupply`, so the state is unchanged;
on success the completion write runs. -/
def fetchTokenResult (st : TokenViewState) (decimals : Nat)
    (read : Except String Int) : TokenViewState :=
  match read with
  | Except.ok raw => fetchTokenComplete st decimals raw
  | Except.error _ => st

/-- Outcome of one issued `fetchBalance` read, by the same pattern. -/
def fetchBalanceResult (st : TokenViewState) (decimals : Nat)
    (read : Except String Int) : TokenViewState :=
  match read with
  | Except.ok raw => fetchBalanceComplete st decimals raw
  | Except.error _ => st

/-- Runs the completion writes of several overlapping `fetchToken` reads in
the order in which they complete. Each element is the raw result of one read;
the list order is completion order. The source gives each completion an
unconditional write, so the stored value after the run is decided purely by
completion order. -/
def runFetchTokenCompletions (decimals : Nat) (st : TokenViewState)
    (results : List Int) : TokenViewState :=
  results.foldl (fun s raw => fetchTokenComplete s decimals raw) st

/-- Embeds `queryAllowanceBySpender` (lines 46-57). The guard
`if (spender && contract && account)` requires a non-empty spender string, a
live contract binding and a connected account; only then is the single
`contract.allowance(account, spender)` read issued (its result is the
`readAllowance` oracle argument) and merged into the allowance mapping.
The boolean result records whether a network read was issued. -/
def queryAllowanceBySpender (spender : Address) (contract : Option Source)
    (account : Option Address) (readAllowance : Int) (decimals : Nat)
    (st : TokenViewState) : Bool × TokenViewState :=
  if spender ≠ "" ∧ contract.isSome = true ∧ account.isSome = true then
    (true, { st with
      allowance := setAllowanceEntry st.allowance spender
        (bigNum2Big readAllowance decimals) })
  else
    (false, st)

/-- The call submitted to the transaction-execution collaborator by the
approve actions: the method name and its two arguments. -/
structure ApproveCall where
  method : String
  spender : Address
  rawAmount : Int

/-- Modelled from the spec: `useContractCall` comes from src/hook/useContractCall,
which is not under src/. Per section 4.3 the wrapped actions fail fast,
synchronously and before any network call, when the contract binding or the
signer is unavailable; only with both available does the wrapped body run
(matching the non-null assertion `contract!` inside the bodies). `none` is
the graceful no-call outcome. -/
def useContractCall {α : Type} (contract : Option Source)
    (signer : Option Signer) (body : Source → Signer → α) : Option α :=
  match contract with
  | none => none
  | some c =>
    match signer with
    | none => none
    | some s => some (body c s)

/-- Embeds `approve` (lines 59-75): through `useContractCall`, submits an
`approve` call with the exact amount converted to raw integer form. -/
def approve (contract : Option Source) (signer : Option Signer)
    (spender : Address) (amount : ℚ) : Option ApproveCall :=
  useContractCall contract signer fun _ _ =>
    { method := "approve", spender := spender, rawAmount := big2BigNum amount }

/-- Embeds `approveInfinity` (lines 77-93): through `useContractCall`, submits
an `approve` call whose amount is `constants.MaxUint256`. -/
def approveInfinity (contract : Option Source) (signer : Option Signer)
    (spender : Address) : Option ApproveCall :=
  useContractCall contract signer fun _ _ =>
    { method := "approve", spender := spender, rawAmount := MaxUint256 }

/-- Embeds the `Transfer` handler (lines 95-100). The guard is
`contract && (from === account || to === account)`; when it holds, the balance
is re-read (`readBalance` is the oracle result of `contract.balanceOf(account)`)
and written; otherwise nothing happens. The boolean records whether a re-read
was issued. -/
def onTransfer (contract : Option Source) (account : Option Address)
    (fromAddr toAddr : Address) (readBalance : Int) (decimals : Nat)
    (st : TokenViewState) : Bool × TokenViewState :=
  if contract.isSome = true ∧ (some fromAddr = account ∨ some toAddr = account) then
    (true, fetchBalanceComplete st decimals readBalance)
  else
    (false, st)

/-- Embeds the `Approval` handler (lines 102-110). The guard is
`contract && owner === account`; when it holds, the allowance for `spender` is
re-read (`readAllowance` is the oracle result of
`contract.allowance(owner, spender)`) and merged with the object spread;
otherwise nothing happens. -/
def onApproval (contract : Option Source) (account : Option Address)
    (owner spender : Address) (readAllowance : Int) (decimals : Nat)
    (st : TokenViewState) : Bool × TokenViewState :=
  if contract.isSome = true ∧ some owner = account then
    (true, { st with
      allowance := setAllowanceEntry st.allowance spender
        (bigNum2Big readAllowance decimals) })
  else
    (false, st)

/-- One render of the component that calls `useContractEvent`: the `contract`
value (possibly null), the `eventName` string, and the identity of the handler
closure supplied on that render. -/
abbrev RenderStep := Option Source × String × HandlerId

/-- State of one `useContractEvent` hook instance (lines 126-148).
`savedCallback` is the mutable ref cell holding the latest handler.
`live` is the multiset of physical listeners currently attached to the
external source via `contract.on` (each tagged with its `(source, eventName)`
pair). `prevDeps` records the `[contract, eventName]` dependency array of the
last run of the subscription effect; `prevInstalled` records the listener that
run attached (none if its guard failed), which is what its cleanup detaches. -/
structure SubscriberState where
  savedCallback : Option HandlerId
  live : List (Source × String)
  prevDeps : Option (Option Source × String)
  prevInstalled : Option (Source × String)

/-- State before the first render: the ref cell starts empty
(`useRef<Callback | null>()`), nothing is attached. -/
def initialSubscriberState : SubscriberState :=
  { savedCallback := none, live := [], prevDeps := none, prevInstalled := none }

/-- The first effect (lines 130-132): it has no dependency array, so it runs
after every render and stores the latest callback in the ref cell. -/
def effectSaveCallback (st : SubscriberState) (cb : HandlerId) :
    SubscriberState :=
  { st with savedCallback := some cb }

/-- Cleanup of the previous subscription-effect run: `contract.off(eventName,
listener)` detaches exactly the listener that run attached, if any. -/
def cleanupLive (st : SubscriberState) : List (Source × String) :=
  match st.prevInstalled with
  | some k => st.live.erase k
  | none => st.live

/-- The guard `if (contract && eventName)` of the subscription effect: a
listener is attached only when the contract is non-null and the event name is
a truthy (non-empty) string. -/
def installTarget (contract : Option Source) (eventName : String) :
    Option (Source × String) :=
  match contract with
  | some c => if eventName = "" then none else some (c, eventName)
  | none => none

/-- The second effect (lines 134-147), keyed on `[contract, eventName]`.
When the dependency pair is unchanged React skips the effect entirely.
When it changed, React first runs the previous cleanup (detaching the old
listener) and then runs the effect body, which attaches one indirection
listener when the guard holds and registers its own cleanup. -/
def effectSubscribe (st : SubscriberState) (contract : Option Source)
    (eventName : String) : SubscriberState :=
  if st.prevDeps = some (contract, eventName) then
    st
  else
    match installTarget contract eventName with
    | some k =>
      { st with
        live := cleanupLive st ++ [k]
        prevInstalled := some k
        prevDeps := some (contract, eventName) }
    | none =>
      { st with
        live := cleanupLive st
        prevInstalled := none
        prevDeps := some (contract, eventName) }

/-- One render commit of `useContractEvent`: React runs the effects in
declaration order, so the ref-cell update happens, then the subscription
effect. -/
def render (st : SubscriberState) (contract : Option Source)
    (eventName : String) (cb : HandlerId) : SubscriberState :=
  effectSubscribe (effectSaveCallback st cb) contract eventName

/-- Folds a sequence of renders over the subscriber state. -/
def renderTrace (st : SubscriberState) : List RenderStep → SubscriberState
  | [] => st
  | step :: rest => renderTrace (render st step.1 step.2.1 step.2.2) rest

/-- Teardown of the owning scope: React runs every pending cleanup, detaching
the listener attached by the last subscription-effect run, if any. -/
def unmount (st : SubscriberState) : SubscriberState :=
  match st.prevInstalled with
  | some k => { st with live := st.live.erase k, prevInstalled := none }
  | none => st

/-- Delivery of one event on the subscribed channel: if a physical listener is
attached, it runs `savedCallback.current(...args)` (lines 135-139), so the
handler invoked is whatever the ref cell holds at invocation time; with no
listener attached, nothing is invoked. -/
def deliver (st : SubscriberState) : Option HandlerId :=
  if st.live = [] then none else st.savedCallback

/-- The subscriber invariant: the attached listeners are exactly the one
recorded by the last subscription-effect run. -/
def subscriberInvariant (st : SubscriberState) : Prop :=
  st.live = st.prevInstalled.toList

/-- C1: evaluation of the code at the failing schedule. Request A (raw result
1) is issued before request B (raw result 2); B completes first, then A, so
the completion order is `[2, 1]`. The claim requires the final stored value to
be the result of B (dropped-stale-via-generation-counter); the code stores the
result of A, because each completion writes unconditionally and no generation
counter exists in the source. -/
theorem fetchToken_stale_overwrite :
    (runFetchTokenCompletions 0 initialTokenViewState [2, 1]).totalSupply
        = bigNum2Big 1 0
      ∧ bigNum2Big 1 0 ≠ bigNum2Big 2 0 := by
  constructor
  · rfl
  · intro h
    simp [bigNum2Big] at h

/-- C2: with no contract binding (`contract = none`), `approve` resolves to no
submitted call at all (the availability check happens before the body that
would build the network call runs), and `queryAllowanceBySpender` issues no
read and leaves the state unchanged; both are total functions, so neither
throws. -/
theorem approve_query_noop_without_binding (signer : Option Signer)
    (spender : Address) (amount : ℚ) (account : Option Address)
    (readAllowance : Int) (decimals : Nat) (st : TokenViewState) :
    approve none signer spender amount = none
      ∧ queryAllowanceBySpender spender none account readAllowance decimals st
          = (false, st) := by
  constructor
  · rfl
  · simp [queryAllowanceBySpender]

/-- C5: with a live binding and signer, `approveInfinity` submits an `approve`
call whose raw amount is exactly the maximum unsigned 256-bit integer,
`2 ^ 256 - 1`, for every spender; the definition takes no view-state input, so
the amount is independent of any previously queried allowance. -/
theorem approveInfinity_max_uint256 (c : Source) (s : Signer)
    (spender : Address) :
    approveInfinity (some c) (some s) spender
        = some { method := "approve", spender := spender,
                 rawAmount := MaxUint256 }
      ∧ MaxUint256 = 2 ^ 256 - 1 :=
  ⟨rfl, rfl⟩

/-- C9: if the awaited read of a feed fails, the async function aborts before
its set-state call, so the previously stored view-state is unchanged for both
the totalSupply feed and the balance feed; no partial or error value is
written. -/
theorem fetch_error_leaves_state (st : TokenViewState) (decimals : Nat)
    (msg : String) :
    fetchTokenResult st decimals (Except.error msg) = st
      ∧ fetchBalanceResult st decimals (Except.error msg) = st :=
  ⟨rfl, rfl⟩

/-- C10: immediately after initialization, `balance` and `totalSupply` are
exactly zero and the allowance mapping is empty — a defined zero/empty
snapshot, never an absent value. -/
theorem useToken_initial_state :
    initialTokenViewState.balance = 0
      ∧ initialTokenViewState.totalSupply = 0
      ∧ ∀ k, initialTokenViewState.allowance k = none :=
  ⟨rfl, rfl, fun _ => rfl⟩

/-- C6: an `Approval` event whose owner is the connected account triggers an
allowance re-read and updates the entry of the event spender to the freshly
read value converted by `10 ^ decimals`; every other spender entry, and the
balance and totalSupply fields, are untouched. -/
theorem onApproval_updates_spender_entry (c : Source) (account : Option Address)
    (owner spender other : Address) (readAllowance : Int) (decimals : Nat)
    (st : TokenViewState) (hacc : account = some owner)
    (hother : other ≠ spender) :
    (onApproval (some c) account owner spender readAllowance decimals st).1
        = true
      ∧ ((onApproval (some c) account owner spender readAllowance decimals
            st).2).allowance spender
          = some (bigNum2Big readAllowance decimals)
      ∧ ((onApproval (some c) account owner spender readAllowance decimals
            st).2).allowance other = st.allowance other
      ∧ ((onApproval (some c) account owner spender readAllowance decimals
            st).2).balance = st.balance
      ∧ ((onApproval (some c) account owner spender readAllowance decimals
            st).2).totalSupply = st.totalSupply := by
  have hguard : (some c : Option Source).isSome = true ∧ some owner = account :=
    ⟨rfl, hacc.symm⟩
  simp only [onApproval, if_pos hguard]
  refine ⟨by trivial, ?_, ?_, by trivial, by trivial⟩
  · simp [setAllowanceEntry]
  · simp [setAllowanceEntry, hother]

/-- C6 witness: the theorem applied at a concrete approval event. -/
theorem onApproval_updates_spender_entry_witness :
    (onApproval (some 0) (some "0xOWNER") "0xOWNER" "0xSPENDER" 5 0
        initialTokenViewState).1 = true
      ∧ ((onApproval (some 0) (some "0xOWNER") "0xOWNER" "0xSPENDER" 5 0
            initialTokenViewState).2).allowance "0xSPENDER"
          = some (bigNum2Big 5 0)
      ∧ ((onApproval (some 0) (some "0xOWNER") "0xOWNER" "0xSPENDER" 5 0
            initialTokenViewState).2).allowance "0xOTHER"
          = initialTokenViewState.allowance "0xOTHER"
      ∧ ((onApproval (some 0) (some "0xOWNER") "0xOWNER" "0xSPENDER" 5 0
            initialTokenViewState).2).balance = initialTokenViewState.balance
      ∧ ((onApproval (some 0) (some "0xOWNER") "0xOWNER" "0xSPENDER" 5 0
            initialTokenViewState).2).totalSupply
          = initialTokenViewState.totalSupply :=
  onApproval_updates_spender_entry 0 (some "0xOWNER") "0xOWNER" "0xSPENDER"
    "0xOTHER" 5 0 initialTokenViewState rfl (by decide)

/-- C7: a `Transfer` event in which neither `from` nor `to` is the connected
account issues no balance re-read and leaves the entire view-state unchanged. -/
theorem onTransfer_unrelated_noop (contract : Option Source)
    (account : Option Address) (fromAddr toAddr : Address) (readBalance : Int)
    (decimals : Nat) (st : TokenViewState)
    (hfrom : some fromAddr ≠ account) (hto : some toAddr ≠ account) :
    onTransfer contract account fromAddr toAddr readBalance decimals st
      = (false, st) := by
  have hguard : ¬(contract.isSome = true
      ∧ (some fromAddr = account ∨ some toAddr = account)) := by
    rintro ⟨-, h | h⟩
    · exact hfrom h
    · exact hto h
  simp only [onTransfer, if_neg hguard]

/-- C7 witness: the theorem applied at a concrete unrelated transfer event. -/
theorem onTransfer_unrelated_noop_witness :
    onTransfer (some 0) (some "0xME") "0xAAA" "0xBBB" 5 0
        initialTokenViewState = (false, initialTokenViewState) :=
  onTransfer_unrelated_noop (some 0) (some "0xME") "0xAAA" "0xBBB" 5 0
    initialTokenViewState (by decide) (by decide)

/-- C8: with a live binding and account, querying the allowance of one spender
and then of a second, distinct spender leaves a mapping containing both keys
with their respective read values; each call merges without erasing the entry
of the other. -/
theorem queryAllowance_merge_preserves (s1 s2 : Address) (c : Source)
    (a : Address) (r1 r2 : Int) (decimals : Nat) (st : TokenViewState)
    (h1 : s1 ≠ "") (h2 : s2 ≠ "") (hne : s1 ≠ s2) :
    ((queryAllowanceBySpender s2 (some c) (some a) r2 decimals
        (queryAllowanceBySpender s1 (some c) (some a) r1 decimals
          st).2).2).allowance s1 = some (bigNum2Big r1 decimals)
      ∧ ((queryAllowanceBySpender s2 (some c) (some a) r2 decimals
            (queryAllowanceBySpender s1 (some c) (some a) r1 decimals
              st).2).2).allowance s2 = some (bigNum2Big r2 decimals) := by
  have hg1 : s1 ≠ "" ∧ (some c : Option Source).isSome = true
      ∧ (some a : Option Address).isSome = true := ⟨h1, rfl, rfl⟩
  have hg2 : s2 ≠ "" ∧ (some c : Option Source).isSome = true
      ∧ (some a : Option Address).isSome = true := ⟨h2, rfl, rfl⟩
  simp only [queryAllowanceBySpender, if_pos hg1, if_pos hg2]
  constructor
  · simp [setAllowanceEntry, hne]
  · simp [setAllowanceEntry]

/-- C8 witness: the theorem applied at two concrete distinct spenders. -/
theorem queryAllowance_merge_preserves_witness :
    ((queryAllowanceBySpender "0xBBB" (some 0) (some "0xME") 7 0
        (queryAllowanceBySpender "0xAAA" (some 0) (some "0xME") 3 0
          initialTokenViewState).2).2).allowance "0xAAA"
        = some (bigNum2Big 3 0)
      ∧ ((queryAllowanceBySpender "0xBBB" (some 0) (some "0xME") 7 0
            (queryAllowanceBySpender "0xAAA" (some 0) (some "0xME") 3 0
              initialTokenViewState).2).2).allowance "0xBBB"
          = some (bigNum2Big 7 0) :=
  queryAllowance_merge_preserves "0xAAA" "0xBBB" 0 "0xME" 3 7 0
    initialTokenViewState (by decide) (by decide) (by decide)

lemma effectSubscribe_savedCallback (st : SubscriberState)
    (contract : Option Source) (eventName : String) :
    (effectSubscribe st contract eventName).savedCallback = st.savedCallback := by
  unfold effectSubscribe
  split
  · rfl
  · cases h : installTarget contract eventName <;> simp only [h]

lemma render_savedCallback (st : SubscriberState) (contract : Option Source)
    (eventName : String) (cb : HandlerId) :
    (render st contract eventName cb).savedCallback = some cb := by
  unfold render
  rw [effectSubscribe_savedCallback]
  rfl

lemma deliver_eq_savedCallback (st : SubscriberState) (h : HandlerId)
    (hd : deliver st = some h) : st.savedCallback = some h := by
  unfold deliver at hd
  split at hd
  · exact absurd hd (by simp)
  · exact hd

/-- C3: for any sequence of handler replacements under an unchanged
`(source, channelName)` pair, delivering an event either invokes nothing (no
listener attached) or invokes exactly the most recently supplied handler —
never a previously registered one — because the physical listener reads the
latest-callback cell at invocation time. -/
theorem useContractEvent_latest_handler (init : SubscriberState)
    (contract : Option Source) (eventName : String) (cbs : List HandlerId)
    (cb : HandlerId) :
    deliver ((cbs ++ [cb]).foldl
        (fun s x => render s contract eventName x) init) = none
      ∨ deliver ((cbs ++ [cb]).foldl
          (fun s x => render s contract eventName x) init) = some cb := by
  rw [List.foldl_append]
  simp only [List.foldl_cons, List.foldl_nil]
  set st := cbs.foldl (fun s x => render s contract eventName x) init with hst
  by_cases hlive : (render st contract eventName cb).live = []
  · left
    unfold deliver
    rw [if_pos hlive]
  · right
    unfold deliver
    rw [if_neg hlive]
    exact render_savedCallback st contract eventName cb

lemma cleanupLive_eq_nil (st : SubscriberState)
    (h : subscriberInvariant st) : cleanupLive st = [] := by
  unfold subscriberInvariant at h
  unfold cleanupLive
  cases hp : st.prevInstalled with
  | none =>
    rw [h, hp]
    rfl
  | some k =>
    rw [h, hp]
    simp [Option.toList]

lemma subscriberInvariant_effectSubscribe (st : SubscriberState)
    (contract : Option Source) (eventName : String)
    (h : subscriberInvariant st) :
    subscriberInvariant (effectSubscribe st contract eventName) := by
  unfold effectSubscribe
  split
  · exact h
  · have hcl : cleanupLive st = [] := cleanupLive_eq_nil st h
    cases htg : installTarget contract eventName with
    | none =>
      simp only [htg]
      unfold subscriberInvariant
      simp [hcl]
    | some k =>
      simp only [htg]
      unfold subscriberInvariant
      simp [hcl]

lemma subscriberInvariant_render (st : SubscriberState)
    (contract : Option Source) (eventName : String) (cb : HandlerId)
    (h : subscriberInvariant st) :
    subscriberInvariant (render st contract eventName cb) :=
  subscriberInvariant_effectSubscribe (effectSaveCallback st cb) contract
    eventName h

lemma subscriberInvariant_renderTrace (steps : List RenderStep) :
    ∀ st : SubscriberState, subscriberInvariant st →
      subscriberInvariant (renderTrace st steps) := by
  induction steps with
  | nil => exact fun st h => h
  | cons step rest ih =>
    intro st h
    exact ih _ (subscriberInvariant_render st step.1 step.2.1 step.2.2 h)

lemma subscriberInvariant_live_length (st : SubscriberState)
    (h : subscriberInvariant st) : st.live.length ≤ 1 := by
  unfold subscriberInvariant at h
  rw [h]
  cases st.prevInstalled <;> simp [Option.toList]

lemma subscriberInvariant_unmount_live (st : SubscriberState)
    (h : subscriberInvariant st) : (unmount st).live = [] := by
  unfold subscriberInvariant at h
  unfold unmount
  cases hp : st.prevInstalled with
  | none =>
    rw [h, hp]
    rfl
  | some k =>
    simp only [hp]
    rw [h, hp]
    simp [Option.toList]

/-- C4: starting from the initial subscriber state, for every sequence of
`(source, channelName, handler)` renders, at every instant (after every
prefix of the sequence) at most one physical listener is attached — the
subscription effect detaches the old listener before attaching a new one —
and after the owning scope is torn down exactly zero are attached. -/
theorem useContractEvent_single_listener (steps : List RenderStep) :
    (∀ n : Nat,
        ((renderTrace initialSubscriberState (steps.take n)).live).length ≤ 1)
      ∧ ((unmount (renderTrace initialSubscriberState steps)).live).length
          = 0 := by
  have hinit : subscriberInvariant initialSubscriberState := rfl
  constructor
  · intro n
    exact subscriberInvariant_live_length _
      (subscriberInvariant_renderTrace (steps.take n) _ hinit)
  · rw [subscriberInvariant_unmount_live _
      (subscriberInvariant_renderTrace steps _ hinit)]
    rfl

end PerpLite
